import Mathlib

/-!
Shallow embedding of two NeMo source files and theorems checking the
specification's claims about them:

* `nemo/lightning/pytorch/callbacks/memory_profiler.py` — a PyTorch Lightning
  callback that records GPU memory-allocation history and dumps snapshots;
* `examples/llm/slimpajama/data/preprocess.py` — a multiprocessing driver that
  turns shard files into tokenizer-preprocessing subprocess commands.

Python objects are modelled as explicit state records, the ambient distributed
context and the SLURM environment as parameters, side effects as explicit
effect lists, and raising as `Except`.
-/

/-- Python exceptions the modelled code can raise. -/
inductive PyError where
  | attributeError (attr : String)
  | nameError (name : String)
  deriving Repr, DecidableEq

/-- Side effects the callback performs through the torch memory API. -/
inductive Effect where
  | startRecording (max_entries : Nat)
  | dumpSnapshot (path : String)
  | stopRecording
  deriving Repr, DecidableEq

/-- Ambient distributed context: the values of
`torch.distributed.is_initialized()` and `get_rank()` on this process. -/
structure Ctx where
  distInitialized : Bool
  currentRank : Nat
  deriving Repr, DecidableEq

/-- The attributes of a fully constructed `MemoryProfileCallback`. -/
structure MemoryProfileCallback where
  prof_dir : String
  ranks : List Nat
  interval : Int
  step : Nat
  deriving Repr, DecidableEq

/-- A partially constructed object: each attribute is `none` until the
corresponding `self.x = ...` line has executed, and reading a `none`
attribute is Python's `AttributeError`. -/
structure PartialSelf where
  prof_dir : Option String := none
  ranks : Option (List Nat) := none
  interval : Option Int := none
  step : Option Nat := none
  deriving Repr, DecidableEq

/-- `MemoryProfileCallback.__init__` (memory_profiler.py lines 43-52): assigns
`self.prof_dir` and `self.ranks`, then evaluates
`assert isinstance(self.interval, int)`, which reads `self.interval` before
the line `self.interval = interval` has run. -/
def MemoryProfileCallback.init (prof_dir : String) (warn_cycles : Bool)
    (ranks : List Nat) (interval : Int) : Except PyError MemoryProfileCallback :=
  let self : PartialSelf := {}
  let self := { self with prof_dir := some prof_dir }
  let self := { self with ranks := some ranks }
  match self.interval with
  | none => .error (.attributeError "interval")
  | some _ =>
    let self := { self with interval := some interval }
    let self := { self with step := some 0 }
    match self.prof_dir, self.ranks, self.interval, self.step with
    | some p, some r, some i, some s =>
      let _ := warn_cycles
      .ok ⟨p, r, i, s⟩
    | _, _, _, _ => .error (.attributeError "unreachable")

/-- `enable_on_rank` (lines 58-61): true when the rank list is empty or the
distributed context is uninitialized, else membership of the current rank. -/
def MemoryProfileCallback.enable_on_rank (self : MemoryProfileCallback)
    (ctx : Ctx) : Bool :=
  if self.ranks.isEmpty || !ctx.distInitialized then true
  else self.ranks.contains ctx.currentRank

/-- `setup` (lines 63-77): starts memory-history recording when the
distributed context is initialized and `enable_on_rank` holds. -/
def MemoryProfileCallback.setup (self : MemoryProfileCallback) (ctx : Ctx) :
    List Effect :=
  if ctx.distInitialized && self.enable_on_rank ctx then
    [.startRecording 100000]
  else []

/-- `_dump_memory_snapshot` (lines 79-87): defaults `rank` to `get_rank()` and
the path to `prof_dir/memory_snapshot-rank{rank}.pickle`, dumps the snapshot
and stops recording. -/
def MemoryProfileCallback._dump_memory_snapshot (self : MemoryProfileCallback)
    (ctx : Ctx) (snapshot_path : Option String) : List Effect :=
  let rank := ctx.currentRank
  let path := snapshot_path.getD
    (self.prof_dir ++ "/memory_snapshot-rank" ++ toString rank ++ ".pickle")
  [.dumpSnapshot path, .stopRecording]

/-- `on_train_batch_start` (lines 89-96): returns unchanged when
`interval <= 0`; otherwise, at steps that are a multiple of the interval with
`enable_on_rank` true, the snapshot-path f-string references the local name
`rank`, which is bound nowhere in this method, so Python raises
`NameError: name 'rank' is not defined` before anything is dumped or the step
counter is incremented; on the remaining paths `self.step` is incremented. -/
def MemoryProfileCallback.on_train_batch_start (self : MemoryProfileCallback)
    (ctx : Ctx) : Except PyError (MemoryProfileCallback × List Effect) :=
  if self.interval ≤ 0 then
    .ok (self, [])
  else if (self.step : Int) % self.interval = 0 then
    if self.enable_on_rank ctx then
      .error (.nameError "rank")
    else
      .ok ({ self with step := self.step + 1 }, [])
  else
    .ok ({ self with step := self.step + 1 }, [])

/-- `on_train_end` (lines 98-108): dumps one final snapshot at the default
path when `enable_on_rank` holds. -/
def MemoryProfileCallback.on_train_end (self : MemoryProfileCallback)
    (ctx : Ctx) : List Effect :=
  if self.enable_on_rank ctx then self._dump_memory_snapshot ctx none
  else []

/-! ### preprocess.py -/

/-- The SLURM job-array environment: the integer values of
`SLURM_ARRAY_TASK_COUNT` and `SLURM_ARRAY_TASK_ID`, `none` when unset. -/
structure Env where
  slurm_array_task_count : Option Int := none
  slurm_array_task_id : Option Int := none
  deriving Repr, DecidableEq

/-- Python truthiness of an `Optional[int]`: `None` and `0` are falsy. -/
def truthyInt : Option Int → Bool
  | none => false
  | some n => n != 0

/-- Python truthiness of an `Optional[str]`: `None` and `""` are falsy. -/
def truthyStr : Option String → Bool
  | none => false
  | some s => s != ""

/-- Python truthiness of an `Optional[list[str]]`: `None` and `[]` are falsy. -/
def truthyList : Option (List String) → Bool
  | none => false
  | some l => !l.isEmpty

/-- preprocess.py lines 46-54: resolve `(num_tasks, task_id)`. When
`num_tasks` is falsy, read both SLURM variables if `SLURM_ARRAY_TASK_COUNT`
is set (a missing `SLURM_ARRAY_TASK_ID` would then be a `KeyError`, modelled
as `none`), else default to one task owning index 0. When `num_tasks` is
truthy the passed values are kept (a `None` `task_id` would fail at the
bucket indexing below, modelled as `none`). -/
def resolve_tasks (env : Env) (num_tasks task_id : Option Int) :
    Option (Int × Int) :=
  if !truthyInt num_tasks then
    match env.slurm_array_task_count with
    | some c =>
      match env.slurm_array_task_id with
      | some i => some (c, i)
      | none => none
    | none => some (1, 0)
  else
    match num_tasks, task_id with
    | some n, some t => some (n, t)
    | _, _ => none

/-- Modelled from the spec: `get_shard_list` is defined in
`data/extract.py`, which is not part of this fragment. Per the spec it
deterministically partitions the shard file list into `num_tasks` disjoint
buckets, bucket `task_id` being the shards that task owns; we model the
partition as round-robin by shard index, under which a single task's
bucket 0 is the whole list. -/
def get_shard_list (shards : List String) (num_tasks : Nat) :
    List (List String) :=
  (List.range num_tasks).map fun i =>
    (shards.enum.filter fun p => p.1 % num_tasks == i).map Prod.snd

/-- The fixed script invoked for every shard (lines 55-58). -/
def scriptPath : String :=
  "/opt/NeMo/scripts/nlp_language_modeling/preprocess_data_for_megatron.py"

/-- `os.path.basename` for POSIX paths: the part after the last slash. -/
def basename (p : String) : String := (p.splitOn "/").getLastD ""

/-- `os.path.join` for POSIX paths, two arguments. -/
def joinPath (a b : String) : String :=
  if b.startsWith "/" then b
  else if a == "" || a.endsWith "/" then a ++ b
  else a ++ "/" ++ b

/-- The keyword arguments of `preprocess_data` that shape each command. -/
structure PreprocessArgs where
  output_dir : String
  dataset_impl : String := "mmap"
  tokenizer_type : String := "GPT2BPETokenizer"
  tokenizer_library : String := "megatron"
  vocab_file_path : Option String := none
  merges_file_path : Option String := none
  extra_args : Option (List String) := none
  deriving Repr, DecidableEq

/-- The five unconditional flags built for one shard (lines 65-74), with
`output_arg = os.path.join(output_dir, os.path.basename(split))`. -/
def baseFlags (a : PreprocessArgs) (split : String) : List String :=
  let output_arg := joinPath a.output_dir (basename split)
  [ "--input=" ++ split,
    "--output-prefix=" ++ output_arg,
    "--dataset-impl=" ++ a.dataset_impl,
    "--tokenizer-library=" ++ a.tokenizer_library,
    "--tokenizer-type=" ++ a.tokenizer_type ]

/-- The three flags appended only when both the vocabulary and merges paths
are truthy (lines 76-82). -/
def vocabFlags (a : PreprocessArgs) : List String :=
  if truthyStr a.vocab_file_path && truthyStr a.merges_file_path then
    [ "--vocab=" ++ a.vocab_file_path.getD "",
      "--merge-file=" ++ a.merges_file_path.getD "",
      "--append-eod" ]
  else []

/-- `final_cmd = cmd + flags` (line 84): the command before the optional
`extra_args` append. -/
def cmd_flags (a : PreprocessArgs) (split : String) : List String :=
  ["python", scriptPath] ++ (baseFlags a split ++ vocabFlags a)

/-- The full command for one shard (lines 55-86): `cmd + flags`, then
`extra_args` appended when truthy. -/
def final_cmd (a : PreprocessArgs) (split : String) : List String :=
  let fc := cmd_flags a split
  if truthyList a.extra_args then fc ++ a.extra_args.getD [] else fc

/-- The loop over `shard_files` (lines 61-86): `if not split: continue` skips
falsy (empty) entries, every other entry appends `(final_cmd, task_id)`. -/
def final_cmds (a : PreprocessArgs) (task_id : Int) :
    List String → List (List String × Int)
  | [] => []
  | split :: rest =>
    if split == "" then final_cmds a task_id rest
    else (final_cmd a split, task_id) :: final_cmds a task_id rest

/-- `subprocess.CalledProcessError`: the command and its non-zero status. -/
structure CalledProcessError where
  cmd : List String
  returncode : Int
  deriving Repr, DecidableEq

/-- `subprocess.check_call`, relative to an oracle `exit_status` giving each
command's exit status: raises `CalledProcessError` exactly on non-zero. -/
def check_call (exit_status : List String → Int) (cmd : List String) :
    Except CalledProcessError Unit :=
  if exit_status cmd == 0 then .ok () else .error ⟨cmd, exit_status cmd⟩

/-- `execute_cmd` (lines 24-31): runs `check_call` with no try/except around
it, so a `CalledProcessError` propagates to the caller. -/
def execute_cmd (exit_status : List String → Int) (ct : List String × Int) :
    Except CalledProcessError Unit :=
  check_call exit_status ct.1

/-- `pool.map(execute_cmd, final_cmds)` (lines 88-92): `preprocess_data` has
no try/except either, and `multiprocessing.Pool.map` re-raises a worker's
exception in the caller, so the first failing command fails the whole
invocation and no structured per-shard result is produced. -/
def pool_map (exit_status : List String → Int) :
    List (List String × Int) → Except CalledProcessError (List Unit)
  | [] => .ok []
  | ct :: rest =>
    match execute_cmd exit_status ct with
    | .error e => .error e
    | .ok u =>
      match pool_map exit_status rest with
      | .error e => .error e
      | .ok us => .ok (u :: us)

/-! ### Claims about the memory profiler -/

/-- C2: `MemoryProfileCallback.__init__` evaluates its assertion on
`self.interval` before the attribute is assigned, so construction raises for
every combination of arguments and no instance is ever built. -/
theorem C2_init_always_raises (prof_dir : String) (warn_cycles : Bool)
    (ranks : List Nat) (interval : Int) :
    MemoryProfileCallback.init prof_dir warn_cycles ranks interval =
      .error (.attributeError "interval") := rfl

/-- C1: the claim's periodic dump is broken in the code. At the first batch of
a callback with `interval = 1 > 0` and an all-ranks configuration,
`on_train_batch_start` raises `NameError` for the unbound local `rank` instead
of writing the snapshot file named by rank and step; `on_train_end`, by
contrast, does dump exactly one snapshot. -/
theorem C1_interval_dump_raises_name_error :
    (⟨"/mem_profile", [], 1, 0⟩ : MemoryProfileCallback).on_train_batch_start
        ⟨false, 0⟩ = .error (.nameError "rank") ∧
    (⟨"/mem_profile", [], 1, 0⟩ : MemoryProfileCallback).on_train_end ⟨false, 0⟩ =
      [.dumpSnapshot "/mem_profile/memory_snapshot-rank0.pickle",
        .stopRecording] := ⟨rfl, rfl⟩

/-- C10: frame effects of `on_train_batch_start` evaluated on concrete states:
with `interval = 0` the state is returned unchanged; with `interval = 2` at an
off-interval step the counter advances from 1 to 2 with no other change; but
with `interval = 2` at an on-interval step the call raises `NameError` before
the increment, so the step counter does not increase by 1 as claimed. -/
theorem C10_batch_start_frame :
    ((⟨"/mem_profile", [], 0, 3⟩ : MemoryProfileCallback).on_train_batch_start
        ⟨false, 0⟩ = .ok (⟨"/mem_profile", [], 0, 3⟩, [])) ∧
    ((⟨"/mem_profile", [], 2, 1⟩ : MemoryProfileCallback).on_train_batch_start
        ⟨false, 0⟩ = .ok (⟨"/mem_profile", [], 2, 2⟩, [])) ∧
    ((⟨"/mem_profile", [], 2, 4⟩ : MemoryProfileCallback).on_train_batch_start
        ⟨false, 0⟩ = .error (.nameError "rank")) := ⟨rfl, rfl, rfl⟩

/-- C3: with a non-empty rank list and an initialized distributed context,
`enable_on_rank` is true exactly for listed ranks, and consequently `setup`
starts recording, and `on_train_end` dumps, exactly on listed ranks. -/
theorem C3_rank_filtering (self : MemoryProfileCallback) (ctx : Ctx)
    (hr : self.ranks ≠ []) (hd : ctx.distInitialized = true) :
    (self.enable_on_rank ctx = true ↔ ctx.currentRank ∈ self.ranks) ∧
    (self.setup ctx ≠ [] ↔ ctx.currentRank ∈ self.ranks) ∧
    (self.on_train_end ctx ≠ [] ↔ ctx.currentRank ∈ self.ranks) := by
  by_cases hm : ctx.currentRank ∈ self.ranks
  · have hen : self.enable_on_rank ctx = true := by
      simp [MemoryProfileCallback.enable_on_rank, hd, hr, hm]
    refine ⟨by simp [hen, hm], ?_, ?_⟩
    · simp [MemoryProfileCallback.setup, hd, hen, hm]
    · simp [MemoryProfileCallback.on_train_end, hen, hm,
        MemoryProfileCallback._dump_memory_snapshot]
  · have hen : self.enable_on_rank ctx = false := by
      simp [MemoryProfileCallback.enable_on_rank, hd, hr, hm]
    refine ⟨by simp [hen, hm], ?_, ?_⟩
    · simp [MemoryProfileCallback.setup, hd, hen, hm]
    · simp [MemoryProfileCallback.on_train_end, hen, hm]

/-- Witness for C3 at rank 2 with rank list `[0, 2]`. -/
theorem C3_rank_filtering_witness :
    (([0, 2] : List Nat) ≠ [] ∧ (⟨true, 2⟩ : Ctx).distInitialized = true) ∧
    (((⟨"/mem_profile", [0, 2], 0, 0⟩ : MemoryProfileCallback).enable_on_rank
          ⟨true, 2⟩ = true ↔ (2 : Nat) ∈ [0, 2]) ∧
      ((⟨"/mem_profile", [0, 2], 0, 0⟩ : MemoryProfileCallback).setup
          ⟨true, 2⟩ ≠ [] ↔ (2 : Nat) ∈ [0, 2]) ∧
      ((⟨"/mem_profile", [0, 2], 0, 0⟩ : MemoryProfileCallback).on_train_end
          ⟨true, 2⟩ ≠ [] ↔ (2 : Nat) ∈ [0, 2])) :=
  ⟨⟨by decide, rfl⟩,
    C3_rank_filtering ⟨"/mem_profile", [0, 2], 0, 0⟩ ⟨true, 2⟩ (by decide) rfl⟩

/-- C9: when the distributed context is not initialized, `enable_on_rank` is
true even for a non-empty rank list, so `on_train_end` dumps its snapshot on
every process, while `setup` never starts recording because its guard also
requires an initialized distributed context. -/
theorem C9_uninitialized_dist (self : MemoryProfileCallback) (ctx : Ctx)
    (hd : ctx.distInitialized = false) :
    self.enable_on_rank ctx = true ∧
    self.on_train_end ctx =
      [Effect.dumpSnapshot (self.prof_dir ++ "/memory_snapshot-rank" ++
          toString ctx.currentRank ++ ".pickle"),
        Effect.stopRecording] ∧
    self.setup ctx = [] := by
  have hen : self.enable_on_rank ctx = true := by
    simp [MemoryProfileCallback.enable_on_rank, hd]
  refine ⟨hen, ?_, ?_⟩
  · simp [MemoryProfileCallback.on_train_end, hen,
      MemoryProfileCallback._dump_memory_snapshot]
  · simp [MemoryProfileCallback.setup, hd]

/-- Witness for C9 at rank 1 with the non-empty rank list `[0]`. -/
theorem C9_uninitialized_dist_witness :
    (⟨false, 1⟩ : Ctx).distInitialized = false ∧
    ((⟨"/mem_profile", [0], 0, 0⟩ : MemoryProfileCallback).enable_on_rank
        ⟨false, 1⟩ = true ∧
      (⟨"/mem_profile", [0], 0, 0⟩ : MemoryProfileCallback).on_train_end
          ⟨false, 1⟩ =
        [Effect.dumpSnapshot ("/mem_profile" ++ "/memory_snapshot-rank" ++
            toString (1 : Nat) ++ ".pickle"),
          Effect.stopRecording] ∧
      (⟨"/mem_profile", [0], 0, 0⟩ : MemoryProfileCallback).setup
        ⟨false, 1⟩ = []) :=
  ⟨rfl, C9_uninitialized_dist ⟨"/mem_profile", [0], 0, 0⟩ ⟨false, 1⟩ rfl⟩

/-! ### Claims about the preprocessing driver -/

/-- C4: with no explicit task parameters, `(num_tasks, task_id)` comes from
`SLURM_ARRAY_TASK_COUNT`/`SLURM_ARRAY_TASK_ID` when the count variable is
set, and defaults to `(1, 0)` otherwise, in which case bucket 0 of the shard
partition is the entire shard list. -/
theorem C4_env_task_resolution (env : Env) (shards : List String) :
    (∀ c i, env.slurm_array_task_count = some c →
      env.slurm_array_task_id = some i →
      resolve_tasks env none none = some (c, i)) ∧
    (env.slurm_array_task_count = none →
      resolve_tasks env none none = some (1, 0) ∧
      (get_shard_list shards 1)[0]? = some shards) := by
  refine ⟨fun c i hc hi => by simp [resolve_tasks, truthyInt, hc, hi],
    fun hc => ⟨by simp [resolve_tasks, truthyInt, hc], ?_⟩⟩
  have hfilter : (shards.enum.filter fun p => p.1 % 1 == 0) = shards.enum :=
    List.filter_eq_self.mpr (fun p _ => by simp [Nat.mod_one])
  simp [get_shard_list, hfilter, List.enum_map_snd]

/-- Witness for C4: SLURM array of 5 tasks with id 2, and an empty SLURM
environment with a two-shard directory. -/
theorem C4_env_task_resolution_witness :
    (resolve_tasks ⟨some 5, some 2⟩ none none = some (5, 2)) ∧
    (resolve_tasks ⟨none, none⟩ none none = some (1, 0) ∧
      (get_shard_list ["a.jsonl", "b.jsonl"] 1)[0]? =
        some ["a.jsonl", "b.jsonl"]) :=
  ⟨(C4_env_task_resolution ⟨some 5, some 2⟩ []).1 5 2 rfl rfl,
    (C4_env_task_resolution ⟨none, none⟩ ["a.jsonl", "b.jsonl"]).2 rfl⟩

/-- C6: the command list has exactly one entry per non-empty shard entry of
the selected bucket, in bucket order; empty (falsy) entries produce none. -/
theorem C6_skip_empty_shards (a : PreprocessArgs) (task_id : Int)
    (shards : List String) :
    final_cmds a task_id shards =
      (shards.filter fun s => !(s == "")).map
        fun s => (final_cmd a s, task_id) := by
  induction shards with
  | nil => rfl
  | cons s rest ih =>
    cases h : (s == "") with
    | true => simp [final_cmds, h, ih]
    | false => simp [final_cmds, h, ih]

/-- C7: every generated command is the fixed two-element interpreter/script
prefix, the five flags in order, then the three vocabulary-dependent flags
exactly when both paths are truthy, then the `extra_args` passthrough
verbatim; the `--output-prefix` value joins the output directory with the
shard's basename. -/
theorem C7_command_shape (a : PreprocessArgs) (split : String) :
    final_cmd a split =
      ["python", scriptPath] ++
      [ "--input=" ++ split,
        "--output-prefix=" ++ joinPath a.output_dir (basename split),
        "--dataset-impl=" ++ a.dataset_impl,
        "--tokenizer-library=" ++ a.tokenizer_library,
        "--tokenizer-type=" ++ a.tokenizer_type ] ++
      (if truthyStr a.vocab_file_path && truthyStr a.merges_file_path then
        [ "--vocab=" ++ a.vocab_file_path.getD "",
          "--merge-file=" ++ a.merges_file_path.getD "",
          "--append-eod" ]
      else []) ++
      a.extra_args.getD [] := by
  cases hx : a.extra_args with
  | none => simp [final_cmd, cmd_flags, baseFlags, vocabFlags, truthyList, hx]
  | some l =>
    cases l with
    | nil => simp [final_cmd, cmd_flags, baseFlags, vocabFlags, truthyList, hx]
    | cons x xs =>
      simp [final_cmd, cmd_flags, baseFlags, vocabFlags, truthyList, hx]

/-- C8: a non-zero exit status of any command makes the whole pool invocation
fail with a `CalledProcessError` carrying a non-zero return code; nothing
catches it, there is no retry and no structured per-shard result. -/
theorem C8_failure_aborts_pool (exit_status : List String → Int)
    (cmds : List (List String × Int))
    (h : ∃ ct ∈ cmds, exit_status ct.1 ≠ 0) :
    ∃ e : CalledProcessError,
      pool_map exit_status cmds = .error e ∧ e.returncode ≠ 0 := by
  induction cmds with
  | nil => simp at h
  | cons ct rest ih =>
    by_cases hc : exit_status ct.1 = 0
    · have hrest : ∃ c ∈ rest, exit_status c.1 ≠ 0 := by
        rcases h with ⟨c, hmem, hne⟩
        rcases List.mem_cons.mp hmem with rfl | hmem'
        · exact absurd hc hne
        · exact ⟨c, hmem', hne⟩
      rcases ih hrest with ⟨e, he, hne⟩
      exact ⟨e, by simp [pool_map, execute_cmd, check_call, hc, he], hne⟩
    · exact ⟨⟨ct.1, exit_status ct.1⟩,
        by simp [pool_map, execute_cmd, check_call, hc], hc⟩

/-- Witness for C8: a single command whose exit status is 1 fails the pool. -/
theorem C8_failure_aborts_pool_witness :
    (∃ ct ∈ [((["python", scriptPath], (0 : Int)))],
      (fun _ => (1 : Int)) ct.1 ≠ 0) ∧
    ∃ e : CalledProcessError,
      pool_map (fun _ => (1 : Int)) [((["python", scriptPath], (0 : Int)))] =
        .error e ∧ e.returncode ≠ 0 :=
  ⟨⟨(["python", scriptPath], 0), by simp, by decide⟩,
    C8_failure_aborts_pool (fun _ => (1 : Int))
      [((["python", scriptPath], (0 : Int)))]
      ⟨(["python", scriptPath], 0), by simp, by decide⟩⟩

/-! ### C5: the three vocabulary-dependent flags -/

/-- A string differs from an append whose left part disagrees with it at a
common index of their character data. -/
theorem ne_of_getElem_data (p q w : String) (i : Nat)
    (hq : i < q.data.length) (hne : p.data[i]? ≠ q.data[i]?) : p ≠ q ++ w := by
  intro h
  apply hne
  have hd : p.data = q.data ++ w.data := by
    have h2 := congrArg String.data h
    simpa [String.data_append] using h2
  calc p.data[i]? = (q.data ++ w.data)[i]? := by rw [hd]
    _ = q.data[i]? := List.getElem?_append_left hq

/-- Two appends whose left parts disagree at a common index differ. -/
theorem append_ne_append_of_getElem_data (p q v w : String) (i : Nat)
    (hp : i < p.data.length) (hq : i < q.data.length)
    (hne : p.data[i]? ≠ q.data[i]?) : p ++ v ≠ q ++ w := by
  intro h
  apply hne
  have hd : p.data ++ v.data = q.data ++ w.data := by
    have h2 := congrArg String.data h
    simpa [String.data_append] using h2
  calc p.data[i]? = (p.data ++ v.data)[i]? := (List.getElem?_append_left hp).symm
    _ = (q.data ++ w.data)[i]? := by rw [hd]
    _ = q.data[i]? := List.getElem?_append_left hq

/-- An append differs from a string its left part disagrees with. -/
theorem append_ne_of_getElem_data (p q v : String) (i : Nat)
    (hp : i < p.data.length) (hne : p.data[i]? ≠ q.data[i]?) : p ++ v ≠ q :=
  fun h => ne_of_getElem_data q p v i hp (Ne.symm hne) h.symm

/-- C5: when both the vocabulary and merges paths are truthy, every generated
command contains all three dependent flags; when either is missing, the
constructed command (before the user-supplied `extra_args` tail, which is
appended verbatim and unchanged) contains no `--vocab=`, no `--merge-file=`
and no `--append-eod` argument. -/
theorem C5_vocab_dependent_flags (a : PreprocessArgs) (split : String) :
    ((truthyStr a.vocab_file_path && truthyStr a.merges_file_path) = true →
      ("--vocab=" ++ a.vocab_file_path.getD "") ∈ final_cmd a split ∧
      ("--merge-file=" ++ a.merges_file_path.getD "") ∈ final_cmd a split ∧
      "--append-eod" ∈ final_cmd a split) ∧
    ((truthyStr a.vocab_file_path && truthyStr a.merges_file_path) = false →
      final_cmd a split = cmd_flags a split ++ a.extra_args.getD [] ∧
      (∀ v, ("--vocab=" ++ v) ∉ cmd_flags a split) ∧
      (∀ m, ("--merge-file=" ++ m) ∉ cmd_flags a split) ∧
      "--append-eod" ∉ cmd_flags a split) := by
  have hsub : ∀ x, x ∈ cmd_flags a split → x ∈ final_cmd a split := by
    intro x hx
    rw [final_cmd]
    split
    · exact List.mem_append_left _ hx
    · exact hx
  constructor
  · intro hboth
    refine ⟨hsub _ ?_, hsub _ ?_, hsub _ ?_⟩ <;>
      simp [cmd_flags, baseFlags, vocabFlags, hboth]
  · intro hboth
    have hcf : cmd_flags a split =
        [ "python", scriptPath, "--input=" ++ split,
          "--output-prefix=" ++ joinPath a.output_dir (basename split),
          "--dataset-impl=" ++ a.dataset_impl,
          "--tokenizer-library=" ++ a.tokenizer_library,
          "--tokenizer-type=" ++ a.tokenizer_type ] := by
      simp [cmd_flags, baseFlags, vocabFlags, hboth]
    refine ⟨?_, ?_, ?_, ?_⟩
    · cases hx : a.extra_args with
      | none => simp [final_cmd, truthyList, hx]
      | some l =>
        cases l with
        | nil => simp [final_cmd, truthyList, hx]
        | cons y ys => simp [final_cmd, truthyList, hx]
    · intro v hv
      rw [hcf] at hv
      simp only [List.mem_cons, List.not_mem_nil, or_false] at hv
      rcases hv with h | h | h | h | h | h | h
      · exact append_ne_of_getElem_data "--vocab=" "python" v 0
          (by decide) (by decide) h
      · exact append_ne_of_getElem_data "--vocab=" scriptPath v 0
          (by decide) (by decide) h
      · exact append_ne_append_of_getElem_data "--vocab=" "--input=" v _ 2
          (by decide) (by decide) (by decide) h
      · exact append_ne_append_of_getElem_data "--vocab=" "--output-prefix=" v _ 2
          (by decide) (by decide) (by decide) h
      · exact append_ne_append_of_getElem_data "--vocab=" "--dataset-impl=" v _ 2
          (by decide) (by decide) (by decide) h
      · exact append_ne_append_of_getElem_data "--vocab=" "--tokenizer-library=" v _ 2
          (by decide) (by decide) (by decide) h
      · exact append_ne_append_of_getElem_data "--vocab=" "--tokenizer-type=" v _ 2
          (by decide) (by decide) (by decide) h
    · intro m hm
      rw [hcf] at hm
      simp only [List.mem_cons, List.not_mem_nil, or_false] at hm
      rcases hm with h | h | h | h | h | h | h
      · exact append_ne_of_getElem_data "--merge-file=" "python" m 0
          (by decide) (by decide) h
      · exact append_ne_of_getElem_data "--merge-file=" scriptPath m 0
          (by decide) (by decide) h
      · exact append_ne_append_of_getElem_data "--merge-file=" "--input=" m _ 2
          (by decide) (by decide) (by decide) h
      · exact append_ne_append_of_getElem_data "--merge-file=" "--output-prefix=" m _ 2
          (by decide) (by decide) (by decide) h
      · exact append_ne_append_of_getElem_data "--merge-file=" "--dataset-impl=" m _ 2
          (by decide) (by decide) (by decide) h
      · exact append_ne_append_of_getElem_data "--merge-file=" "--tokenizer-library=" m _ 2
          (by decide) (by decide) (by decide) h
      · exact append_ne_append_of_getElem_data "--merge-file=" "--tokenizer-type=" m _ 2
          (by decide) (by decide) (by decide) h
    · intro hv
      rw [hcf] at hv
      simp only [List.mem_cons, List.not_mem_nil, or_false] at hv
      rcases hv with h | h | h | h | h | h | h
      · exact (by decide : "--append-eod" ≠ "python") h
      · exact (by decide : "--append-eod" ≠ scriptPath) h
      · exact ne_of_getElem_data "--append-eod" "--input=" _ 2
          (by decide) (by decide) h
      · exact ne_of_getElem_data "--append-eod" "--output-prefix=" _ 2
          (by decide) (by decide) h
      · exact ne_of_getElem_data "--append-eod" "--dataset-impl=" _ 2
          (by decide) (by decide) h
      · exact ne_of_getElem_data "--append-eod" "--tokenizer-library=" _ 2
          (by decide) (by decide) h
      · exact ne_of_getElem_data "--append-eod" "--tokenizer-type=" _ 2
          (by decide) (by decide) h

/-- Witness for C5: with both paths supplied the command carries
`--append-eod`; with the vocabulary path missing the constructed command
carries none of the dependent flags (shown here for `--append-eod`). -/
theorem C5_vocab_dependent_flags_witness :
    "--append-eod" ∈ final_cmd
      ⟨"/out", "mmap", "GPT2BPETokenizer", "megatron",
        some "/v.json", some "/m.txt", none⟩ "x.jsonl" ∧
    "--append-eod" ∉ cmd_flags
      ⟨"/out", "mmap", "GPT2BPETokenizer", "megatron",
        none, some "/m.txt", none⟩ "x.jsonl" :=
  ⟨((C5_vocab_dependent_flags
      ⟨"/out", "mmap", "GPT2BPETokenizer", "megatron",
        some "/v.json", some "/m.txt", none⟩ "x.jsonl").1 (by decide)).2.2,
    ((C5_vocab_dependent_flags
      ⟨"/out", "mmap", "GPT2BPETokenizer", "megatron",
        none, some "/m.txt", none⟩ "x.jsonl").2 (by decide)).2.2.2⟩
